import Mathlib

/-!
Verification development for the GA4 analytics dashboard repository.

The definitions below are a shallow embedding of the repository's
report-fetch-and-normalize pipeline:

* `ga4_client.py` : `GA4Client.__init__` (credential resolution),
  `get_basic_report`, `get_realtime_report`, the preset convenience
  operations, and `_response_to_dataframe` (response normalization);
* `app.py` : `load_ga4_client` (`st.cache_resource`), `get_cached_data`
  (`st.cache_data`), and the manual-refresh button
  (`st.cache_data.clear()`).

Python strings are `String`, Python `dict` rows are insertion-ordered
association lists, pandas `DataFrame`s are lists of such records, Python
exceptions are `Except String`, and the visible Streamlit side effects
(`st.error`) together with remote invocations are modelled as an explicit
event list.  Python floats produced by `float(...)` on decimal literals
are modelled exactly as rationals (no arithmetic is performed on them).
-/

/-- A typed cell value of the normalized table: string, int (`int(...)`),
float (`float(...)`), or calendar date (`pd.to_datetime(..., "%Y%m%d")`). -/
inductive Value where
  | str (s : String)
  | int (n : Int)
  | float (q : ℚ)
  | date (y m d : Nat)
deriving DecidableEq, Repr

/-- One row of the normalized table: a Python `dict` as an
insertion-ordered association list from column name to value. -/
abbrev Record := List (String × Value)

/-- A pandas `DataFrame` holding normalized report rows. -/
abbrev Table := List Record

/-- The column names of a record, in insertion order (`dict` key order). -/
def keys (r : Record) : List String := r.map Prod.fst

/-- Python `dict` assignment `row_data[k] = v`: replace in place when the
key exists (keeping its position), append otherwise. -/
def dictInsert (r : Record) (k : String) (v : Value) : Record :=
  if k ∈ keys r then r.map (fun p => if p.1 = k then (k, v) else p)
  else r ++ [(k, v)]

/-- Fold decimal digit characters into a natural number. -/
def digitsToNat (cs : List Char) : Nat :=
  cs.foldl (fun acc c => acc * 10 + (c.toNat - '0'.toNat)) 0

/-- ASCII whitespace stripped by Python's `str.strip()`. -/
def isPySpace (c : Char) : Bool :=
  c == ' ' || c == '\t' || c == '\n' || c == '\r' || c == '\x0b' || c == '\x0c'

/-- Strip leading and trailing whitespace, as Python `str.strip()`. -/
def pyStripChars (cs : List Char) : List Char :=
  ((cs.dropWhile isPySpace).reverse.dropWhile isPySpace).reverse

/-- Parse a nonempty all-digit character list; `none` otherwise. -/
def digitsOnly (cs : List Char) : Option Nat :=
  if cs.isEmpty then none
  else if cs.all Char.isDigit then some (digitsToNat cs) else none

/-- Python `int(s)` on the strings the remote format delivers: optional
surrounding whitespace, optional sign, decimal digits. -/
def pyInt (s : String) : Option Int :=
  match pyStripChars s.data with
  | '+' :: rest => (digitsOnly rest).map Int.ofNat
  | '-' :: rest => (digitsOnly rest).map (fun n => -(Int.ofNat n))
  | cs => (digitsOnly cs).map Int.ofNat

/-- Split a character list at the first exponent marker `e`/`E`. -/
def splitAtExp (cs : List Char) : List Char × Option (List Char) :=
  match cs.findIdx? (fun c => c == 'e' || c == 'E') with
  | some i => (cs.take i, some (cs.drop (i + 1)))
  | none => (cs, none)

/-- Parse the mantissa of a float literal: digits with an optional single
decimal point, at least one digit overall.  Returns
(integer part, fractional digits value, fractional digit count). -/
def parseMantissa (cs : List Char) : Option (Nat × Nat × Nat) :=
  match cs.findIdx? (fun c => c == '.') with
  | none => (digitsOnly cs).map (fun n => (n, 0, 0))
  | some i =>
      let ip := cs.take i
      let fp := cs.drop (i + 1)
      if fp.any (fun c => c == '.') then none
      else if ip.isEmpty && fp.isEmpty then none
      else if ip.all Char.isDigit && fp.all Char.isDigit then
        some (digitsToNat ip, digitsToNat fp, fp.length)
      else none

/-- Parse an optional exponent: optional sign then digits. -/
def parseExp (cs : List Char) : Option Int :=
  match cs with
  | '+' :: rest => (digitsOnly rest).map Int.ofNat
  | '-' :: rest => (digitsOnly rest).map (fun n => -(Int.ofNat n))
  | _ => (digitsOnly cs).map Int.ofNat

/-- Assemble a rational from sign, mantissa parts and exponent:
sign * (ip.fv) * 10^ex, built with `mkRat` so it evaluates by kernel
arithmetic. -/
def ratOfParts (sign : Int) (ip fv fl : Nat) (ex : Int) : ℚ :=
  let num0 : Int := sign * (Int.ofNat (ip * 10 ^ fl + fv))
  if 0 ≤ ex then mkRat (num0 * Int.ofNat (10 ^ ex.toNat)) (10 ^ fl)
  else mkRat num0 (10 ^ fl * 10 ^ (-ex).toNat)

/-- Python `float(s)` on decimal literals, modelled exactly over ℚ:
optional whitespace and sign, digits with optional decimal point,
optional exponent. -/
def pyFloat (s : String) : Option ℚ :=
  let stripped := pyStripChars s.data
  let signBody : Int × List Char :=
    match stripped with
    | '+' :: rest => (1, rest)
    | '-' :: rest => (-1, rest)
    | rest => (1, rest)
  let mantExp := splitAtExp signBody.2
  match parseMantissa mantExp.1 with
  | none => none
  | some (ip, fv, fl) =>
      match mantExp.2 with
      | none => some (ratOfParts signBody.1 ip fv fl 0)
      | some ecs =>
          match parseExp ecs with
          | none => none
          | some ex => some (ratOfParts signBody.1 ip fv fl ex)

/-- The metric-value coercion of `_response_to_dataframe`:
`float(value) if "." in value else int(value)` inside a
`try`/`except (ValueError, TypeError)` that retains the original string. -/
def coerceMetric (value : String) : Value :=
  if value.data.contains '.' then
    match pyFloat value with
    | some q => Value.float q
    | none => Value.str value
  else
    match pyInt value with
    | some n => Value.int n
    | none => Value.str value

/-- One raw remote-format row: positionally aligned dimension and metric
value strings (`row.dimension_values[i].value`, `row.metric_values[i].value`). -/
structure RawRow where
  dimension_values : List String
  metric_values : List String
deriving DecidableEq, Repr

/-- A raw remote response.  `none` models a missing attribute
(the code guards each with `hasattr`). -/
structure RawResponse where
  dimension_headers : Option (List String)
  metric_headers : Option (List String)
  rows : Option (List RawRow)
deriving DecidableEq, Repr

/-- Python list indexing `l[i]`, raising `IndexError` when out of range. -/
def pyIndex {α : Type} (l : List α) (i : Nat) : Except String α :=
  match l[i]? with
  | some a => Except.ok a
  | none => Except.error "IndexError: list index out of range"

/-- The dimension loop of `_response_to_dataframe`:
`for i, dimension in enumerate(response.dimension_headers):
  row_data[dimension.name] = row.dimension_values[i].value`. -/
def addDims (names : List String) (vals : List String) (i : Nat) (acc : Record) :
    Except String Record :=
  match names with
  | [] => Except.ok acc
  | n :: rest =>
      match pyIndex vals i with
      | Except.ok v => addDims rest vals (i + 1) (dictInsert acc n (Value.str v))
      | Except.error e => Except.error e

/-- The metric loop of `_response_to_dataframe`:
`for i, metric in enumerate(metric_headers): ... row_data[metric.name] = ...`
with the numeric coercion applied to each value. -/
def addMetrics (names : List String) (vals : List String) (i : Nat) (acc : Record) :
    Except String Record :=
  match names with
  | [] => Except.ok acc
  | n :: rest =>
      match pyIndex vals i with
      | Except.ok v => addMetrics rest vals (i + 1) (dictInsert acc n (coerceMetric v))
      | Except.error e => Except.error e

/-- Builds one `row_data` dict: dimensions first (skipped entirely when the
`dimension_headers` attribute is missing), then metrics
(`metric_headers` falls back to `[]` when the attribute is missing). -/
def buildRow (resp : RawResponse) (row : RawRow) : Except String Record :=
  match (match resp.dimension_headers with
         | some ds => addDims ds row.dimension_values 0 []
         | none => Except.ok []) with
  | Except.error e => Except.error e
  | Except.ok r1 =>
      addMetrics (match resp.metric_headers with | some ms => ms | none => [])
        row.metric_values 0 r1

/-- Error-propagating map over a list (each Python loop iteration may raise). -/
def exMap {α β : Type} (f : α → Except String β) : List α → Except String (List β)
  | [] => Except.ok []
  | a :: as =>
      match f a with
      | Except.error e => Except.error e
      | Except.ok b =>
          match exMap f as with
          | Except.error e => Except.error e
          | Except.ok bs => Except.ok (b :: bs)

/-- Gregorian leap-year rule used by the calendar validation of
`pd.to_datetime`. -/
def isLeapYear (y : Nat) : Bool :=
  (y % 4 == 0 && y % 100 != 0) || y % 400 == 0

/-- Days in a month of a given year. -/
def daysInMonth (y m : Nat) : Nat :=
  if m == 2 then (if isLeapYear y then 29 else 28)
  else if m == 4 || m == 6 || m == 9 || m == 11 then 30
  else 31

/-- Parse a compact `YYYYMMDD` date string as `pd.to_datetime(s, "%Y%m%d")`
does: exactly eight digits and a valid calendar date. -/
def parseYYYYMMDD (s : String) : Option (Nat × Nat × Nat) :=
  let cs := s.data
  if cs.length = 8 ∧ cs.all Char.isDigit then
    let y := digitsToNat (cs.take 4)
    let m := digitsToNat ((cs.drop 4).take 2)
    let d := digitsToNat (cs.drop 6)
    if 1 ≤ m ∧ m ≤ 12 ∧ 1 ≤ d ∧ d ≤ daysInMonth y m then some (y, m, d) else none
  else none

/-- Convert one `date`-column cell, raising (as `pd.to_datetime` with
`errors` left at its default) when the value does not match the format. -/
def convertDateValue (v : Value) : Except String Value :=
  match v with
  | Value.str s =>
      match parseYYYYMMDD s with
      | some (y, m, d) => Except.ok (Value.date y m d)
      | none => Except.error ("time data " ++ s ++ " does not match format %Y%m%d")
  | _ => Except.error "to_datetime: unsupported value type"

/-- Convert one record cell: only the `date` column is touched. -/
def convertDatePair (p : String × Value) : Except String (String × Value) :=
  if p.1 = "date" then
    match convertDateValue p.2 with
    | Except.ok v => Except.ok (p.1, v)
    | Except.error e => Except.error e
  else Except.ok p

/-- The `"date" in df.columns` test. -/
def hasDateColumn (t : Table) : Bool :=
  t.any (fun r => r.any (fun p => p.1 == "date"))

/-- The date-reinterpretation step
`df["date"] = pd.to_datetime(df["date"], format="%Y%m%d")`,
applied only when a `date` column exists. -/
def convertDateColumn (t : Table) : Except String Table :=
  if hasDateColumn t then exMap (fun r => exMap convertDatePair r) t
  else Except.ok t

/-- `GA4Client._response_to_dataframe`: empty table when the `rows`
attribute is missing or empty; otherwise one record per raw row, then the
date-column conversion.  (The `realtime` flag of the Python signature is
unused by the body and omitted.) -/
def responseToDataframe (resp : RawResponse) : Except String Table :=
  match resp.rows with
  | none => Except.ok []
  | some rows =>
      if rows.isEmpty then Except.ok []
      else
        match exMap (buildRow resp) rows with
        | Except.error e => Except.error e
        | Except.ok data => convertDateColumn data

deriving instance DecidableEq for Except

example : responseToDataframe ⟨some ["date"], some ["sessions"],
    some [⟨["20240115"], ["3"]⟩]⟩ =
    Except.ok [[("date", Value.date 2024 1 15), ("sessions", Value.int 3)]] := by
  decide

example : coerceMetric "12.5" = Value.float (12.5 : ℚ) := by
  have h1 : coerceMetric "12.5" = Value.float (ratOfParts 1 12 5 1 0) := rfl
  have h2 : ratOfParts 1 12 5 1 0 = (12.5 : ℚ) := by
    rw [ratOfParts, if_pos (by norm_num), Rat.mkRat_eq_div]
    norm_num
  rw [h1, h2]

example : coerceMetric "42" = Value.int 42 := by decide

example : coerceMetric "abc" = Value.str "abc" := by decide

/-- A `RunReportRequest` sent to the remote run-report endpoint. -/
structure RunReportRequest where
  property : String
  dimensions : List String
  metrics : List String
  date_ranges : List (String × String)
  limit : Nat
deriving DecidableEq, Repr

/-- A `RunRealtimeReportRequest` sent to the remote realtime endpoint
(no date range). -/
structure RunRealtimeReportRequest where
  property : String
  dimensions : List String
  metrics : List String
  limit : Nat
deriving DecidableEq, Repr

/-- An observable side effect of a fetch call: one remote invocation, or
one user-visible `st.error` message. -/
inductive Event where
  | remoteReport (req : RunReportRequest)
  | remoteRealtime (req : RunRealtimeReportRequest)
  | errorMsg (msg : String)
deriving DecidableEq, Repr

/-- How many remote invocations an event trace contains. -/
def countRemote (evs : List Event) : Nat :=
  evs.countP (fun ev =>
    match ev with
    | Event.remoteReport _ => true
    | Event.remoteRealtime _ => true
    | Event.errorMsg _ => false)

/-- The user-visible error messages of an event trace. -/
def errorMsgs (evs : List Event) : List String :=
  evs.filterMap (fun ev =>
    match ev with
    | Event.errorMsg m => some m
    | _ => none)

/-- An authenticated `GA4Client`: the property id plus the wrapped remote
service (`BetaAnalyticsDataClient.run_report` / `run_realtime_report`),
each of which either returns a raw response or raises. -/
structure GA4Client where
  property_id : String
  runReport : RunReportRequest → Except String RawResponse
  runRealtimeReport : RunRealtimeReportRequest → Except String RawResponse

/-- Request construction of `get_basic_report`: metric and dimension
objects from the name lists (`if dimensions:` treats `None` and `[]`
alike), the single `DateRange`, and the property path. -/
def buildRunReportRequest (property_id start_date end_date : String)
    (metrics : List String) (dimensions : Option (List String)) (limit : Nat) :
    RunReportRequest :=
  { property := "properties/" ++ property_id
    dimensions := dimensions.getD []
    metrics := metrics
    date_ranges := [(start_date, end_date)]
    limit := limit }

/-- Request construction of `get_realtime_report` (no date range). -/
def buildRealtimeRequest (property_id : String) (metrics : List String)
    (dimensions : Option (List String)) (limit : Nat) : RunRealtimeReportRequest :=
  { property := "properties/" ++ property_id
    dimensions := dimensions.getD []
    metrics := metrics
    limit := limit }

/-- `GA4Client.get_basic_report`.  Python optional arguments are `Option`
values (`dimensions=None`, `limit=100`).  The whole body sits in a
`try`/`except Exception` that surfaces one `st.error` and returns an
empty `DataFrame`; the event list records the remote invocation and any
surfaced message. -/
def get_basic_report (c : GA4Client) (start_date end_date : String)
    (metrics : List String) (dimensions : Option (List String))
    (limit : Option Nat) : Table × List Event :=
  let req := buildRunReportRequest c.property_id start_date end_date metrics
    dimensions (limit.getD 100)
  match c.runReport req with
  | Except.error e =>
      ([], [Event.remoteReport req, Event.errorMsg ("Error al obtener datos: " ++ e)])
  | Except.ok resp =>
      match responseToDataframe resp with
      | Except.error e =>
          ([], [Event.remoteReport req, Event.errorMsg ("Error al obtener datos: " ++ e)])
      | Except.ok df => (df, [Event.remoteReport req])

/-- `GA4Client.get_realtime_report` (`dimensions=None`, `limit=50`),
with the same fail-soft `try`/`except` shape. -/
def get_realtime_report (c : GA4Client) (metrics : List String)
    (dimensions : Option (List String)) (limit : Option Nat) : Table × List Event :=
  let req := buildRealtimeRequest c.property_id metrics dimensions (limit.getD 50)
  match c.runRealtimeReport req with
  | Except.error e =>
      ([], [Event.remoteRealtime req,
            Event.errorMsg ("Error al obtener datos en tiempo real: " ++ e)])
  | Except.ok resp =>
      match responseToDataframe resp with
      | Except.error e =>
          ([], [Event.remoteRealtime req,
                Event.errorMsg ("Error al obtener datos en tiempo real: " ++ e)])
      | Except.ok df => (df, [Event.remoteRealtime req])

/-- `GA4Client.get_top_pages` (`limit=10`). -/
def get_top_pages (c : GA4Client) (start_date end_date : String)
    (limit : Option Nat) : Table × List Event :=
  get_basic_report c start_date end_date
    ["screenPageViews", "sessions", "totalUsers"]
    (some ["pagePath", "pageTitle"]) (some (limit.getD 10))

/-- `GA4Client.get_traffic_sources` (`limit=10`). -/
def get_traffic_sources (c : GA4Client) (start_date end_date : String)
    (limit : Option Nat) : Table × List Event :=
  get_basic_report c start_date end_date
    ["sessions", "totalUsers", "conversions"]
    (some ["sessionDefaultChannelGroup"]) (some (limit.getD 10))

/-- `GA4Client.get_geographic_data` (`limit=20`). -/
def get_geographic_data (c : GA4Client) (start_date end_date : String)
    (limit : Option Nat) : Table × List Event :=
  get_basic_report c start_date end_date
    ["sessions", "totalUsers", "screenPageViews"]
    (some ["country", "city"]) (some (limit.getD 20))

/-- `GA4Client.get_device_data` (no limit parameter; hard-coded 50). -/
def get_device_data (c : GA4Client) (start_date end_date : String) :
    Table × List Event :=
  get_basic_report c start_date end_date
    ["sessions", "totalUsers", "screenPageViews"]
    (some ["deviceCategory", "browser", "operatingSystem"]) (some 50)

/-- The body of `get_cached_data` in `app.py`: the `data_type` dispatch to
the client operations, exactly as the `if`/`elif` chain writes it (an
unknown `data_type` falls through and returns Python `None`). -/
def computeData (c : GA4Client) (start_date end_date : Option String)
    (data_type : String) : Option Table × List Event :=
  if data_type = "basic" then
    let r := get_basic_report c (start_date.getD "") (end_date.getD "")
      ["sessions", "totalUsers", "screenPageViews", "bounceRate"] (some ["date"]) none
    (some r.1, r.2)
  else if data_type = "pages" then
    let r := get_top_pages c (start_date.getD "") (end_date.getD "") (some 15)
    (some r.1, r.2)
  else if data_type = "sources" then
    let r := get_traffic_sources c (start_date.getD "") (end_date.getD "") (some 10)
    (some r.1, r.2)
  else if data_type = "geographic" then
    let r := get_geographic_data c (start_date.getD "") (end_date.getD "") (some 20)
    (some r.1, r.2)
  else if data_type = "devices" then
    let r := get_device_data c (start_date.getD "") (end_date.getD "")
    (some r.1, r.2)
  else if data_type = "realtime" then
    let r := get_realtime_report c ["activeUsers", "screenPageViews"] none none
    (some r.1, r.2)
  else (none, [])

/-- The `st.cache_data` key of `get_cached_data`: the leading `_client`
parameter begins with an underscore, so Streamlit excludes it from the
key; only `(start_date, end_date, data_type)` are hashed. -/
abbrev CacheKey := Option String × Option String × String

/-- Process-wide Streamlit cache state: the `st.cache_data` entries of
`get_cached_data` (key, storage time, cached return value) and the
`st.cache_resource` entry of `load_ga4_client`. -/
structure AppCache where
  dataCache : List (CacheKey × Nat × Option Table)
  resourceCache : Option (Nat × GA4Client)
  now : Nat

/-- Look up a data-cache entry that is still inside its 300-second
time-to-live; an expired or absent entry is a miss. -/
def lookupFresh (σ : AppCache) (k : CacheKey) : Option (Option Table) :=
  match σ.dataCache.find? (fun ent => decide (ent.1 = k)) with
  | some (_, t0, v) => if σ.now < t0 + 300 then some v else none
  | none => none

/-- Store a freshly computed value; the new entry shadows any older one
with the same key. -/
def storeData (σ : AppCache) (k : CacheKey) (v : Option Table) : AppCache :=
  { σ with dataCache := (k, σ.now, v) :: σ.dataCache }

/-- `@st.cache_data(ttl=300) def get_cached_data(_client, start_date,
end_date, data_type)`: on a fresh hit the memoized table is returned with
no side effects; on a miss the dispatch body runs and its result is
stored under the 3-component key. -/
def get_cached_data (c : GA4Client) (start_date end_date : Option String)
    (data_type : String) (σ : AppCache) : Option Table × AppCache × List Event :=
  match lookupFresh σ (start_date, end_date, data_type) with
  | some v => (v, σ, [])
  | none =>
      let r := computeData c start_date end_date data_type
      (r.1, storeData σ (start_date, end_date, data_type) r.1, r.2)

/-- The manual-refresh button of `main`: `st.cache_data.clear()` empties
every `st.cache_data` scope and leaves `st.cache_resource` untouched. -/
def manualRefresh (σ : AppCache) : AppCache :=
  { σ with dataCache := [] }

/-- `@st.cache_resource(ttl=300) def load_ga4_client()`: reuse the cached
client while fresh, otherwise construct a new one. -/
def load_ga4_client (mk : Unit → GA4Client) (σ : AppCache) : GA4Client × AppCache :=
  match σ.resourceCache with
  | some (t0, c) =>
      if σ.now < t0 + 300 then (c, σ)
      else
        let c2 := mk ()
        (c2, { σ with resourceCache := some (σ.now, c2) })
  | none =>
      let c2 := mk ()
      (c2, { σ with resourceCache := some (σ.now, c2) })

/-- How `GA4Client.__init__` ends up constructing the remote client:
from a credential file on disk, or directly from the parsed in-memory
secret material. -/
inductive ClientMade where
  | fromServiceAccountJson (path : String)
  | fromServiceAccountInfo (jsonContent : String)
deriving DecidableEq, Repr

/-- Credential-resolution failure: neither a `ga4` secrets section nor a
local credentials file exists (`st.error` + `st.stop`). -/
inductive CredFailure where
  | credentialsNotFound
deriving DecidableEq, Repr

/-- Credential resolution and client construction of `GA4Client.__init__`,
parameterized by the ambient environment: the optional `ga4` section of
`st.secrets`, the `os.path.exists` oracle, and `json.dumps`.  The
resolution order is: secrets section first, else the local file at
`credentials_path`, else fail and halt.  The construction step re-checks
`os.path.exists(credentials)` to decide between the file-based and the
in-memory constructor, exactly as the source does. -/
def ga4client_init (secrets_ga4 : Option (List (String × String)))
    (path_exists : String → Bool) (json_dumps : List (String × String) → String)
    (credentials_path : String) : Except CredFailure ClientMade :=
  match secrets_ga4 with
  | some record =>
      let credentials := json_dumps record
      if path_exists credentials then
        Except.ok (ClientMade.fromServiceAccountJson credentials)
      else
        Except.ok (ClientMade.fromServiceAccountInfo credentials)
  | none =>
      if path_exists credentials_path then
        if path_exists credentials_path then
          Except.ok (ClientMade.fromServiceAccountJson credentials_path)
        else
          Except.ok (ClientMade.fromServiceAccountInfo credentials_path)
      else
        Except.error CredFailure.credentialsNotFound

/-! ### Helper lemmas about the normalizer -/

lemma exMap_ok_length {α β : Type} (f : α → Except String β) :
    ∀ {l : List α} {l2 : List β}, exMap f l = Except.ok l2 → l2.length = l.length := by
  intro l
  induction l with
  | nil =>
      intro l2 h
      simp only [exMap, Except.ok.injEq] at h
      subst h; rfl
  | cons a as ih =>
      intro l2 h
      simp only [exMap] at h
      cases hfa : f a with
      | error e => rw [hfa] at h; cases h
      | ok b =>
          rw [hfa] at h
          cases hrec : exMap f as with
          | error e => rw [hrec] at h; cases h
          | ok bs =>
              rw [hrec] at h
              simp only [Except.ok.injEq] at h
              subst h
              simp [ih hrec]

lemma exMap_ok_mem {α β : Type} (f : α → Except String β) :
    ∀ {l : List α} {l2 : List β}, exMap f l = Except.ok l2 →
    ∀ b ∈ l2, ∃ a ∈ l, f a = Except.ok b := by
  intro l
  induction l with
  | nil =>
      intro l2 h
      simp only [exMap, Except.ok.injEq] at h
      subst h; intro b hb; cases hb
  | cons a as ih =>
      intro l2 h
      simp only [exMap] at h
      cases hfa : f a with
      | error e => rw [hfa] at h; cases h
      | ok b =>
          rw [hfa] at h
          cases hrec : exMap f as with
          | error e => rw [hrec] at h; cases h
          | ok bs =>
              rw [hrec] at h
              simp only [Except.ok.injEq] at h
              subst h
              intro b2 hb2
              rcases List.mem_cons.mp hb2 with hb2 | hb2
              · exact ⟨a, by simp, by rw [hfa, hb2]⟩
              · rcases ih hrec b2 hb2 with ⟨a2, ha2, hfa2⟩
                exact ⟨a2, by simp [ha2], hfa2⟩

lemma exMap_total {α β : Type} (f : α → Except String β) :
    ∀ {l : List α}, (∀ a ∈ l, ∃ b, f a = Except.ok b) →
    ∃ l2, exMap f l = Except.ok l2 := by
  intro l
  induction l with
  | nil => intro _; exact ⟨[], rfl⟩
  | cons a as ih =>
      intro h
      rcases h a (by simp) with ⟨b, hb⟩
      rcases ih (fun x hx => h x (by simp [hx])) with ⟨bs, hbs⟩
      exact ⟨b :: bs, by simp only [exMap, hb, hbs]⟩

lemma keys_dictInsert_of_not_mem (r : Record) (k : String) (v : Value)
    (h : k ∉ keys r) : keys (dictInsert r k v) = keys r ++ [k] := by
  rw [dictInsert, if_neg h]
  simp [keys]

lemma addDims_ok_keys :
    ∀ (names vals : List String) (i : Nat) (acc r : Record), names.Nodup →
    (∀ n ∈ names, n ∉ keys acc) →
    addDims names vals i acc = Except.ok r → keys r = keys acc ++ names := by
  intro names
  induction names with
  | nil =>
      intro vals i acc r _ _ h
      simp only [addDims, Except.ok.injEq] at h
      subst h; simp
  | cons n rest ih =>
      intro vals i acc r hnd hdisj h
      simp only [addDims] at h
      cases hv : pyIndex vals i with
      | error e => rw [hv] at h; cases h
      | ok v =>
          rw [hv] at h
          have hn : n ∉ keys acc := hdisj n (by simp)
          have hkeys := keys_dictInsert_of_not_mem acc n (Value.str v) hn
          have hnd2 : rest.Nodup := (List.nodup_cons.mp hnd).2
          have hdisj2 : ∀ m ∈ rest, m ∉ keys (dictInsert acc n (Value.str v)) := by
            intro m hm
            rw [hkeys]
            simp only [List.mem_append, List.mem_singleton]
            rintro (hc | hc)
            · exact hdisj m (by simp [hm]) hc
            · exact (List.nodup_cons.mp hnd).1 (hc ▸ hm)
          have hres := ih vals (i + 1) _ r hnd2 hdisj2 h
          rw [hres, hkeys]
          simp

lemma addDims_total :
    ∀ (names vals : List String) (i : Nat) (acc : Record),
    i + names.length ≤ vals.length →
    ∃ r, addDims names vals i acc = Except.ok r := by
  intro names
  induction names with
  | nil => intro vals i acc _; exact ⟨acc, rfl⟩
  | cons n rest ih =>
      intro vals i acc h
      simp only [List.length_cons] at h
      cases hv : vals[i]? with
      | none =>
          exfalso
          rw [List.getElem?_eq_none_iff] at hv
          omega
      | some v =>
          have hp : pyIndex vals i = Except.ok v := by simp [pyIndex, hv]
          rcases ih vals (i + 1) (dictInsert acc n (Value.str v)) (by omega) with ⟨r, hr⟩
          exact ⟨r, by simp only [addDims, hp, hr]⟩

lemma addMetrics_ok_keys :
    ∀ (names vals : List String) (i : Nat) (acc r : Record), names.Nodup →
    (∀ n ∈ names, n ∉ keys acc) →
    addMetrics names vals i acc = Except.ok r → keys r = keys acc ++ names := by
  intro names
  induction names with
  | nil =>
      intro vals i acc r _ _ h
      simp only [addMetrics, Except.ok.injEq] at h
      subst h; simp
  | cons n rest ih =>
      intro vals i acc r hnd hdisj h
      simp only [addMetrics] at h
      cases hv : pyIndex vals i with
      | error e => rw [hv] at h; cases h
      | ok v =>
          rw [hv] at h
          have hn : n ∉ keys acc := hdisj n (by simp)
          have hkeys := keys_dictInsert_of_not_mem acc n (coerceMetric v) hn
          have hnd2 : rest.Nodup := (List.nodup_cons.mp hnd).2
          have hdisj2 : ∀ m ∈ rest, m ∉ keys (dictInsert acc n (coerceMetric v)) := by
            intro m hm
            rw [hkeys]
            simp only [List.mem_append, List.mem_singleton]
            rintro (hc | hc)
            · exact hdisj m (by simp [hm]) hc
            · exact (List.nodup_cons.mp hnd).1 (hc ▸ hm)
          have hres := ih vals (i + 1) _ r hnd2 hdisj2 h
          rw [hres, hkeys]
          simp

lemma addMetrics_total :
    ∀ (names vals : List String) (i : Nat) (acc : Record),
    i + names.length ≤ vals.length →
    ∃ r, addMetrics names vals i acc = Except.ok r := by
  intro names
  induction names with
  | nil => intro vals i acc _; exact ⟨acc, rfl⟩
  | cons n rest ih =>
      intro vals i acc h
      simp only [List.length_cons] at h
      cases hv : vals[i]? with
      | none =>
          exfalso
          rw [List.getElem?_eq_none_iff] at hv
          omega
      | some v =>
          have hp : pyIndex vals i = Except.ok v := by simp [pyIndex, hv]
          rcases ih vals (i + 1) (dictInsert acc n (coerceMetric v)) (by omega) with ⟨r, hr⟩
          exact ⟨r, by simp only [addMetrics, hp, hr]⟩

lemma buildRowAux_ok_keys (dn mn vals1 vals2 : List String) (r : Record)
    (hnd : (dn ++ mn).Nodup)
    (h : (match addDims dn vals1 0 [] with
          | Except.error e => Except.error e
          | Except.ok r1 => addMetrics mn vals2 0 r1) = Except.ok r) :
    keys r = dn ++ mn := by
  rcases List.nodup_append.mp hnd with ⟨hdn, hmn, hdisj⟩
  cases hd : addDims dn vals1 0 [] with
  | error e => rw [hd] at h; cases h
  | ok r1 =>
      rw [hd] at h
      have hk1 : keys r1 = dn := by
        have := addDims_ok_keys dn vals1 0 [] r1 hdn (by intro n _ hc; cases hc) hd
        simpa using this
      have hk2 := addMetrics_ok_keys mn vals2 0 r1 r hmn
        (by intro n hn; rw [hk1]; exact fun hc => hdisj hc hn) h
      rw [hk2, hk1]

lemma buildRow_ok_keys (resp : RawResponse) (row : RawRow) (r : Record)
    (hnd : (resp.dimension_headers.getD [] ++ resp.metric_headers.getD []).Nodup)
    (h : buildRow resp row = Except.ok r) :
    keys r = resp.dimension_headers.getD [] ++ resp.metric_headers.getD [] := by
  obtain ⟨dh, mh, rws⟩ := resp
  cases dh with
  | none =>
      cases mh with
      | none =>
          refine buildRowAux_ok_keys [] [] row.dimension_values row.metric_values r (by simp) ?_
          simpa [buildRow, addDims] using h
      | some mn =>
          refine buildRowAux_ok_keys [] mn row.dimension_values row.metric_values r (by simpa using hnd) ?_
          simpa [buildRow, addDims] using h
  | some dn =>
      cases mh with
      | none =>
          refine buildRowAux_ok_keys dn [] row.dimension_values row.metric_values r (by simpa using hnd) ?_
          simpa [buildRow] using h
      | some mn =>
          refine buildRowAux_ok_keys dn mn row.dimension_values row.metric_values r (by simpa using hnd) ?_
          simpa [buildRow] using h

lemma buildRow_total (resp : RawResponse) (row : RawRow)
    (h1 : (resp.dimension_headers.getD []).length ≤ row.dimension_values.length)
    (h2 : (resp.metric_headers.getD []).length ≤ row.metric_values.length) :
    ∃ r, buildRow resp row = Except.ok r := by
  obtain ⟨dh, mh, rws⟩ := resp
  cases dh with
  | none =>
      cases mh with
      | none => exact ⟨[], rfl⟩
      | some mn =>
          rcases addMetrics_total mn row.metric_values 0 [] (by simpa using h2) with ⟨r, hr⟩
          exact ⟨r, by simpa [buildRow] using hr⟩
  | some dn =>
      rcases addDims_total dn row.dimension_values 0 [] (by simpa using h1) with ⟨r1, hr1⟩
      cases mh with
      | none =>
          exact ⟨r1, by simp [buildRow, hr1, addMetrics]⟩
      | some mn =>
          rcases addMetrics_total mn row.metric_values 0 r1 (by simpa using h2) with ⟨r, hr⟩
          exact ⟨r, by simp [buildRow, hr1, hr]⟩

lemma convertDatePair_ok_fst (p q : String × Value)
    (h : convertDatePair p = Except.ok q) : q.1 = p.1 := by
  unfold convertDatePair at h
  by_cases hp : p.1 = "date"
  · rw [if_pos hp] at h
    cases hc : convertDateValue p.2 with
    | error e => rw [hc] at h; cases h
    | ok v => rw [hc] at h; cases h; rfl
  · rw [if_neg hp] at h; cases h; rfl

lemma convertDatePair_ok_spec (p q : String × Value)
    (h : convertDatePair p = Except.ok q) :
    (p.1 ≠ "date" ∧ q = p) ∨ (p.1 = "date" ∧ ∃ y m d, q.2 = Value.date y m d) := by
  unfold convertDatePair at h
  by_cases hp : p.1 = "date"
  · rw [if_pos hp] at h
    cases hv : p.2 with
    | str s =>
        rw [hv] at h
        simp only [convertDateValue] at h
        cases hps : parseYYYYMMDD s with
        | none => rw [hps] at h; cases h
        | some ymd =>
            obtain ⟨y, m, d⟩ := ymd
            rw [hps] at h
            cases h
            exact Or.inr ⟨hp, y, m, d, rfl⟩
    | int n => rw [hv] at h; simp only [convertDateValue] at h; cases h
    | float x => rw [hv] at h; simp only [convertDateValue] at h; cases h
    | date y m d => rw [hv] at h; simp only [convertDateValue] at h; cases h
  · rw [if_neg hp] at h; cases h; exact Or.inl ⟨hp, rfl⟩

lemma exMapPair_keys :
    ∀ (r r2 : Record), exMap convertDatePair r = Except.ok r2 → keys r2 = keys r := by
  intro r
  induction r with
  | nil =>
      intro r2 h
      simp only [exMap, Except.ok.injEq] at h
      subst h; rfl
  | cons p ps ih =>
      intro r2 h
      simp only [exMap] at h
      cases hp : convertDatePair p with
      | error e => rw [hp] at h; cases h
      | ok q =>
          rw [hp] at h
          cases hrec : exMap convertDatePair ps with
          | error e => rw [hrec] at h; cases h
          | ok qs =>
              rw [hrec] at h
              simp only [Except.ok.injEq] at h
              subst h
              simp only [keys, List.map_cons]
              rw [convertDatePair_ok_fst p q hp]
              have hik := ih qs hrec
              simp only [keys] at hik
              rw [hik]

lemma hasDateColumn_false (t : Table) (h : ∀ r ∈ t, "date" ∉ keys r) :
    hasDateColumn t = false := by
  rw [hasDateColumn, List.any_eq_false]
  intro r hr
  simp only [Bool.not_eq_true, List.any_eq_false]
  intro p hp
  rw [beq_eq_false_iff_ne]
  intro hc
  exact h r hr (hc ▸ List.mem_map_of_mem Prod.fst hp)

lemma convertDateColumn_skip (t : Table) (h : ∀ r ∈ t, "date" ∉ keys r) :
    convertDateColumn t = Except.ok t := by
  rw [convertDateColumn, hasDateColumn_false t h]
  simp

lemma convertDateColumn_ok_shape (t t2 : Table)
    (h : convertDateColumn t = Except.ok t2) :
    t2.length = t.length ∧ ∀ r2 ∈ t2, ∃ r ∈ t, keys r2 = keys r := by
  rw [convertDateColumn] at h
  split at h
  · constructor
    · exact exMap_ok_length _ h
    · intro r2 hr2
      rcases exMap_ok_mem _ h r2 hr2 with ⟨r, hr, hok⟩
      exact ⟨r, hr, exMapPair_keys r r2 hok⟩
  · cases h
    exact ⟨rfl, fun r2 hr2 => ⟨r2, hr2, rfl⟩⟩

lemma responseToDataframe_cons (dh mh : Option (List String)) (row0 : RawRow)
    (rest : List RawRow) :
    responseToDataframe ⟨dh, mh, some (row0 :: rest)⟩ =
      (match exMap (buildRow ⟨dh, mh, some (row0 :: rest)⟩) (row0 :: rest) with
       | Except.error e => Except.error e
       | Except.ok data => convertDateColumn data) := rfl

lemma responseToDataframe_ok_shape (resp : RawResponse) (rows : List RawRow)
    (dn mn : List String) (t : Table)
    (h1 : resp.rows = some rows)
    (h2 : resp.dimension_headers = some dn)
    (h3 : resp.metric_headers = some mn)
    (hnd : (dn ++ mn).Nodup)
    (hok : responseToDataframe resp = Except.ok t) :
    t.length = rows.length ∧ ∀ r ∈ t, keys r = dn ++ mn := by
  obtain ⟨dh, mh, rws⟩ := resp
  dsimp only at h1 h2 h3
  subst h1; subst h2; subst h3
  cases rows with
  | nil =>
      have hok2 : (Except.ok [] : Except String Table) = Except.ok t := hok
      cases hok2
      exact ⟨rfl, fun r hr => absurd hr (by simp)⟩
  | cons row0 rest =>
      rw [responseToDataframe_cons] at hok
      cases hmap : exMap (buildRow ⟨some dn, some mn, some (row0 :: rest)⟩)
          (row0 :: rest) with
      | error e => rw [hmap] at hok; cases hok
      | ok data =>
          rw [hmap] at hok
          have hok2 : convertDateColumn data = Except.ok t := hok
          rcases convertDateColumn_ok_shape data t hok2 with ⟨hlen, hkeys⟩
          constructor
          · rw [hlen, exMap_ok_length _ hmap]
          · intro r hr
            rcases hkeys r hr with ⟨r0, hr0, hk⟩
            rcases exMap_ok_mem _ hmap r0 hr0 with ⟨row, _, hbr⟩
            have hbk := buildRow_ok_keys ⟨some dn, some mn, some (row0 :: rest)⟩
              row r0 (by simpa using hnd) hbr
            simp only [Option.getD] at hbk
            rw [hk, hbk]

lemma responseToDataframe_total (resp : RawResponse)
    (hnd : (resp.dimension_headers.getD [] ++ resp.metric_headers.getD []).Nodup)
    (hdate : "date" ∉ resp.dimension_headers.getD [] ++ resp.metric_headers.getD [])
    (halign : ∀ row ∈ resp.rows.getD [],
      (resp.dimension_headers.getD []).length ≤ row.dimension_values.length ∧
      (resp.metric_headers.getD []).length ≤ row.metric_values.length) :
    ∃ t, responseToDataframe resp = Except.ok t ∧
      t.length = (resp.rows.getD []).length ∧
      ∀ r ∈ t, keys r = resp.dimension_headers.getD [] ++ resp.metric_headers.getD [] := by
  obtain ⟨dh, mh, rws⟩ := resp
  dsimp only at hnd hdate halign ⊢
  cases rws with
  | none =>
      refine ⟨[], rfl, rfl, ?_⟩
      intro r hrr; cases hrr
  | some rows =>
      simp only [Option.getD_some] at halign ⊢
      cases rows with
      | nil =>
          refine ⟨[], rfl, rfl, ?_⟩
          intro r hrr; cases hrr
      | cons row0 rest =>
          have htot : ∀ row ∈ row0 :: rest,
              ∃ r, buildRow ⟨dh, mh, some (row0 :: rest)⟩ row = Except.ok r := by
            intro row hrow
            exact buildRow_total _ row (halign row hrow).1 (halign row hrow).2
          rcases exMap_total _ htot with ⟨data, hdata⟩
          have hkeys : ∀ r ∈ data, keys r = dh.getD [] ++ mh.getD [] := by
            intro r hrd
            rcases exMap_ok_mem _ hdata r hrd with ⟨row, _, hbr⟩
            exact buildRow_ok_keys _ row r hnd hbr
          have hskip := convertDateColumn_skip data
            (fun r hrd => by rw [hkeys r hrd]; exact hdate)
          refine ⟨data, ?_, ?_, hkeys⟩
          · rw [responseToDataframe_cons, hdata]
            exact hskip
          · simpa using exMap_ok_length _ hdata

/-! ### Helper lemmas about the fetch wrappers and the cache -/

lemma countRemote_basic (c : GA4Client) (s e : String) (m : List String)
    (d : Option (List String)) (l : Option Nat) :
    countRemote (get_basic_report c s e m d l).2 = 1 := by
  cases hq : c.runReport (buildRunReportRequest c.property_id s e m d (l.getD 100)) with
  | error e2 => simp [get_basic_report, hq, countRemote, List.countP_cons]
  | ok resp =>
      cases hn : responseToDataframe resp with
      | error e2 => simp [get_basic_report, hq, hn, countRemote, List.countP_cons]
      | ok df => simp [get_basic_report, hq, hn, countRemote, List.countP_cons]

lemma countRemote_realtime (c : GA4Client) (m : List String)
    (d : Option (List String)) (l : Option Nat) :
    countRemote (get_realtime_report c m d l).2 = 1 := by
  cases hq : c.runRealtimeReport (buildRealtimeRequest c.property_id m d (l.getD 50)) with
  | error e2 => simp [get_realtime_report, hq, countRemote, List.countP_cons]
  | ok resp =>
      cases hn : responseToDataframe resp with
      | error e2 => simp [get_realtime_report, hq, hn, countRemote, List.countP_cons]
      | ok df => simp [get_realtime_report, hq, hn, countRemote, List.countP_cons]

lemma countRemote_computeData (c : GA4Client) (s e : Option String) (dt : String)
    (h : dt = "basic" ∨ dt = "pages" ∨ dt = "sources" ∨ dt = "geographic" ∨
      dt = "devices" ∨ dt = "realtime") :
    countRemote (computeData c s e dt).2 = 1 := by
  rcases h with h | h | h | h | h | h <;> subst h
  · simpa [computeData] using countRemote_basic c (s.getD "") (e.getD "")
      ["sessions", "totalUsers", "screenPageViews", "bounceRate"] (some ["date"]) none
  · simpa [computeData, get_top_pages] using countRemote_basic c (s.getD "") (e.getD "")
      ["screenPageViews", "sessions", "totalUsers"] (some ["pagePath", "pageTitle"]) (some 15)
  · simpa [computeData, get_traffic_sources] using countRemote_basic c (s.getD "") (e.getD "")
      ["sessions", "totalUsers", "conversions"] (some ["sessionDefaultChannelGroup"]) (some 10)
  · simpa [computeData, get_geographic_data] using countRemote_basic c (s.getD "") (e.getD "")
      ["sessions", "totalUsers", "screenPageViews"] (some ["country", "city"]) (some 20)
  · simpa [computeData, get_device_data] using countRemote_basic c (s.getD "") (e.getD "")
      ["sessions", "totalUsers", "screenPageViews"]
      (some ["deviceCategory", "browser", "operatingSystem"]) (some 50)
  · simpa [computeData] using countRemote_realtime c ["activeUsers", "screenPageViews"] none none

/-! ### Claim theorems -/

/-- C1: for every report fetch (standard or realtime), if the remote
invocation raises any failure, the fetch catches it, surfaces exactly one
visible error message containing the failure description, and returns an
empty table; the failure is never propagated (the fetch wrappers are
total functions into `Table × List Event`). -/
theorem claim_C1_fetch_fail_soft (c : GA4Client) (s e : String) (m : List String)
    (d : Option (List String)) (l : Option Nat) (dsc : String) :
    (c.runReport (buildRunReportRequest c.property_id s e m d (l.getD 100)) =
        Except.error dsc →
      (get_basic_report c s e m d l).1 = [] ∧
      errorMsgs (get_basic_report c s e m d l).2 =
        ["Error al obtener datos: " ++ dsc] ∧
      ∃ pre, "Error al obtener datos: " ++ dsc = pre ++ dsc) ∧
    (c.runRealtimeReport (buildRealtimeRequest c.property_id m d (l.getD 50)) =
        Except.error dsc →
      (get_realtime_report c m d l).1 = [] ∧
      errorMsgs (get_realtime_report c m d l).2 =
        ["Error al obtener datos en tiempo real: " ++ dsc] ∧
      ∃ pre, "Error al obtener datos en tiempo real: " ++ dsc = pre ++ dsc) := by
  constructor
  · intro h
    refine ⟨?_, ?_, ⟨"Error al obtener datos: ", rfl⟩⟩
    · simp [get_basic_report, h]
    · simp [get_basic_report, h, errorMsgs, List.filterMap_cons]
  · intro h
    refine ⟨?_, ?_, ⟨"Error al obtener datos en tiempo real: ", rfl⟩⟩
    · simp [get_realtime_report, h]
    · simp [get_realtime_report, h, errorMsgs, List.filterMap_cons]

/-- Witness for C1 at a concrete failing remote. -/
theorem claim_C1_fetch_fail_soft_witness :
    (get_basic_report
      ⟨"p1", fun _ => Except.error "quota exceeded", fun _ => Except.error "network down"⟩
      "2024-01-01" "2024-01-31" ["sessions"] none none).1 = [] ∧
    errorMsgs (get_basic_report
      ⟨"p1", fun _ => Except.error "quota exceeded", fun _ => Except.error "network down"⟩
      "2024-01-01" "2024-01-31" ["sessions"] none none).2 =
      ["Error al obtener datos: " ++ "quota exceeded"] ∧
    ∃ pre, "Error al obtener datos: " ++ "quota exceeded" = pre ++ "quota exceeded" :=
  (claim_C1_fetch_fail_soft
    ⟨"p1", fun _ => Except.error "quota exceeded", fun _ => Except.error "network down"⟩
    "2024-01-01" "2024-01-31" ["sessions"] none none "quota exceeded").1 rfl

/-- C8: credential resolution checks the secret store first (using the
parsed record directly when the serialized secret is not an existing
path), falls back to the local file at the path hint, and otherwise fails
with the credentials-not-found error so no client is constructed. -/
theorem claim_C8_credential_resolution :
    (∀ (record : List (String × String)) (path_exists : String → Bool)
        (json_dumps : List (String × String) → String) (path : String),
      path_exists (json_dumps record) = false →
      ga4client_init (some record) path_exists json_dumps path =
        Except.ok (ClientMade.fromServiceAccountInfo (json_dumps record))) ∧
    (∀ (path_exists : String → Bool) (json_dumps : List (String × String) → String)
        (path : String),
      path_exists path = true →
      ga4client_init none path_exists json_dumps path =
        Except.ok (ClientMade.fromServiceAccountJson path)) ∧
    (∀ (path_exists : String → Bool) (json_dumps : List (String × String) → String)
        (path : String),
      path_exists path = false →
      ga4client_init none path_exists json_dumps path =
        Except.error CredFailure.credentialsNotFound) := by
  refine ⟨?_, ?_, ?_⟩
  · intro record px jd path h
    simp [ga4client_init, h]
  · intro px jd path h
    simp [ga4client_init, h]
  · intro px jd path h
    simp [ga4client_init, h]

/-- Witness for C8 at concrete environments. -/
theorem claim_C8_credential_resolution_witness :
    ga4client_init (some [("type", "service_account")]) (fun _ => false)
      (fun _ => "JSON") "credentials.json" =
      Except.ok (ClientMade.fromServiceAccountInfo "JSON") ∧
    ga4client_init none (fun _ => true) (fun _ => "JSON") "credentials.json" =
      Except.ok (ClientMade.fromServiceAccountJson "credentials.json") ∧
    ga4client_init none (fun _ => false) (fun _ => "JSON") "credentials.json" =
      Except.error CredFailure.credentialsNotFound :=
  ⟨claim_C8_credential_resolution.1 [("type", "service_account")] (fun _ => false)
      (fun _ => "JSON") "credentials.json" rfl,
   claim_C8_credential_resolution.2.1 (fun _ => true) (fun _ => "JSON")
      "credentials.json" rfl,
   claim_C8_credential_resolution.2.2 (fun _ => false) (fun _ => "JSON")
      "credentials.json" rfl⟩

/-- C9: each convenience operation is a fixed preset over the basic fetch
with no additional logic: top pages (pageviews/sessions/users over page
path/title, default limit 10), traffic sources (sessions/users/conversions
over channel group, default limit 10), geographic (sessions/users/pageviews
over country/city, default limit 20), devices (sessions/users/pageviews
over device category/browser/OS, limit 50), and realtime (active
users/pageviews, no dimensions, default limit 50). -/
theorem claim_C9_presets (c : GA4Client) (s e : String) (s2 e2 : Option String)
    (limit : Option Nat) :
    get_top_pages c s e limit =
      get_basic_report c s e ["screenPageViews", "sessions", "totalUsers"]
        (some ["pagePath", "pageTitle"]) (some (limit.getD 10)) ∧
    get_top_pages c s e none = get_top_pages c s e (some 10) ∧
    get_traffic_sources c s e limit =
      get_basic_report c s e ["sessions", "totalUsers", "conversions"]
        (some ["sessionDefaultChannelGroup"]) (some (limit.getD 10)) ∧
    get_traffic_sources c s e none = get_traffic_sources c s e (some 10) ∧
    get_geographic_data c s e limit =
      get_basic_report c s e ["sessions", "totalUsers", "screenPageViews"]
        (some ["country", "city"]) (some (limit.getD 20)) ∧
    get_geographic_data c s e none = get_geographic_data c s e (some 20) ∧
    get_device_data c s e =
      get_basic_report c s e ["sessions", "totalUsers", "screenPageViews"]
        (some ["deviceCategory", "browser", "operatingSystem"]) (some 50) ∧
    get_realtime_report c ["activeUsers", "screenPageViews"] none none =
      get_realtime_report c ["activeUsers", "screenPageViews"] none (some 50) ∧
    computeData c s2 e2 "realtime" =
      (some (get_realtime_report c ["activeUsers", "screenPageViews"] none none).1,
       (get_realtime_report c ["activeUsers", "screenPageViews"] none none).2) ∧
    (get_top_pages c s e none).2.head? = some (Event.remoteReport
      ⟨"properties/" ++ c.property_id, ["pagePath", "pageTitle"],
       ["screenPageViews", "sessions", "totalUsers"], [(s, e)], 10⟩) ∧
    (get_realtime_report c ["activeUsers", "screenPageViews"] none none).2.head? =
      some (Event.remoteRealtime ⟨"properties/" ++ c.property_id, [],
        ["activeUsers", "screenPageViews"], 50⟩) := by
  refine ⟨rfl, rfl, rfl, rfl, rfl, rfl, rfl, rfl, rfl, ?_, ?_⟩
  · cases hq : c.runReport (buildRunReportRequest c.property_id s e
        ["screenPageViews", "sessions", "totalUsers"] (some ["pagePath", "pageTitle"]) 10) with
    | error e4 =>
        simp only [get_top_pages, get_basic_report, Option.getD_some, Option.getD_none,
          hq, List.head?_cons, Option.some.injEq]
        rfl
    | ok resp =>
        cases hn : responseToDataframe resp with
        | error e4 =>
            simp only [get_top_pages, get_basic_report, Option.getD_some, Option.getD_none,
              hq, hn, List.head?_cons, Option.some.injEq]
            rfl
        | ok df =>
            simp only [get_top_pages, get_basic_report, Option.getD_some, Option.getD_none,
              hq, hn, List.head?_cons, Option.some.injEq]
            rfl
  · cases hq : c.runRealtimeReport (buildRealtimeRequest c.property_id
        ["activeUsers", "screenPageViews"] none 50) with
    | error e4 =>
        simp only [get_realtime_report, Option.getD_none, hq, List.head?_cons,
          Option.some.injEq]
        rfl
    | ok resp =>
        cases hn : responseToDataframe resp with
        | error e4 =>
            simp only [get_realtime_report, Option.getD_none, hq, hn, List.head?_cons,
              Option.some.injEq]
            rfl
        | ok df =>
            simp only [get_realtime_report, Option.getD_none, hq, hn, List.head?_cons,
              Option.some.injEq]
            rfl

/-- C2: for every well-formed raw response with N rows, D declared
dimension headers and M declared metric headers, normalization produces a
table with exactly N records, each record having exactly D+M columns,
with the dimension columns first (in declared order) followed by the
metric columns (in declared order), and the same column set in every
record of one call. -/
theorem claim_C2_normalize_shape (resp : RawResponse) (rows : List RawRow)
    (dn mn : List String) (t : Table)
    (h1 : resp.rows = some rows)
    (h2 : resp.dimension_headers = some dn)
    (h3 : resp.metric_headers = some mn)
    (hnd : (dn ++ mn).Nodup)
    (hok : responseToDataframe resp = Except.ok t) :
    t.length = rows.length ∧
    ∀ r ∈ t, keys r = dn ++ mn ∧ (keys r).length = dn.length + mn.length := by
  have hsh := responseToDataframe_ok_shape resp rows dn mn t h1 h2 h3 hnd hok
  exact ⟨hsh.1, fun r hr => ⟨hsh.2 r hr, by rw [hsh.2 r hr]; simp⟩⟩

/-- Witness for C2 at a concrete two-row response with two dimensions and
one metric. -/
theorem claim_C2_normalize_shape_witness :
    ([[("date", Value.date 2024 1 1), ("country", Value.str "ES"), ("sessions", Value.int 5)],
      [("date", Value.date 2024 1 2), ("country", Value.str "FR"), ("sessions", Value.int 7)]] :
        Table).length =
      [(⟨["20240101", "ES"], ["5"]⟩ : RawRow), ⟨["20240102", "FR"], ["7"]⟩].length ∧
    keys [("date", Value.date 2024 1 1), ("country", Value.str "ES"), ("sessions", Value.int 5)] =
      ["date", "country"] ++ ["sessions"] ∧
    (keys [("date", Value.date 2024 1 1), ("country", Value.str "ES"),
      ("sessions", Value.int 5)]).length =
      (["date", "country"] : List String).length + (["sessions"] : List String).length := by
  have h := claim_C2_normalize_shape
    ⟨some ["date", "country"], some ["sessions"],
      some [⟨["20240101", "ES"], ["5"]⟩, ⟨["20240102", "FR"], ["7"]⟩]⟩
    [⟨["20240101", "ES"], ["5"]⟩, ⟨["20240102", "FR"], ["7"]⟩]
    ["date", "country"] ["sessions"]
    [[("date", Value.date 2024 1 1), ("country", Value.str "ES"), ("sessions", Value.int 5)],
     [("date", Value.date 2024 1 2), ("country", Value.str "FR"), ("sessions", Value.int 7)]]
    rfl rfl rfl (by decide) (by decide)
  exact ⟨h.1,
    (h.2 [("date", Value.date 2024 1 1), ("country", Value.str "ES"),
      ("sessions", Value.int 5)] (by decide)).1,
    (h.2 [("date", Value.date 2024 1 1), ("country", Value.str "ES"),
      ("sessions", Value.int 5)] (by decide)).2⟩

/-- C3: metric values are coerced by the decimal-point rule: a string
with a decimal point parses as a float, otherwise as an integer, and any
parse failure retains the original string without error; in particular
"12.5" becomes the float 12.5, "42" becomes the integer 42, and "abc" is
retained verbatim. -/
theorem claim_C3_numeric_coercion :
    responseToDataframe ⟨some [], some ["m"], some [⟨[], ["12.5"]⟩]⟩ =
      Except.ok [[("m", Value.float (12.5 : ℚ))]] ∧
    responseToDataframe ⟨some [], some ["m"], some [⟨[], ["42"]⟩]⟩ =
      Except.ok [[("m", Value.int 42)]] ∧
    responseToDataframe ⟨some [], some ["m"], some [⟨[], ["abc"]⟩]⟩ =
      Except.ok [[("m", Value.str "abc")]] ∧
    (∀ v : String, v.data.contains '.' = true → pyFloat v = none →
      coerceMetric v = Value.str v) ∧
    (∀ v : String, v.data.contains '.' = false → pyInt v = none →
      coerceMetric v = Value.str v) ∧
    (∀ (v : String) (q : ℚ), v.data.contains '.' = true → pyFloat v = some q →
      coerceMetric v = Value.float q) ∧
    (∀ (v : String) (n : Int), v.data.contains '.' = false → pyInt v = some n →
      coerceMetric v = Value.int n) := by
  refine ⟨?_, by decide, by decide, ?_, ?_, ?_, ?_⟩
  · have h1 : responseToDataframe ⟨some [], some ["m"], some [⟨[], ["12.5"]⟩]⟩ =
        Except.ok [[("m", Value.float (ratOfParts 1 12 5 1 0))]] := rfl
    have h2 : ratOfParts 1 12 5 1 0 = (12.5 : ℚ) := by
      rw [ratOfParts, if_pos (by norm_num), Rat.mkRat_eq_div]
      norm_num
    rw [h2] at h1
    exact h1
  · intro v h hf
    rw [coerceMetric, if_pos h, hf]
  · intro v h hf
    rw [coerceMetric, if_neg (by rw [h]; exact Bool.false_ne_true), hf]
  · intro v q h hf
    rw [coerceMetric, if_pos h, hf]
  · intro v n h hf
    rw [coerceMetric, if_neg (by rw [h]; exact Bool.false_ne_true), hf]

/-- Witness for C3 at concrete unparsable metric strings. -/
theorem claim_C3_numeric_coercion_witness :
    coerceMetric "1.2.3" = Value.str "1.2.3" ∧ coerceMetric "x7" = Value.str "x7" :=
  ⟨claim_C3_numeric_coercion.2.2.2.1 "1.2.3" (by decide) (by decide),
   claim_C3_numeric_coercion.2.2.2.2.1 "x7" (by decide) (by decide)⟩

/-- C5: if the assembled table has a `date` column, every value in that
column is converted from compact YYYYMMDD form to a calendar date (in
particular "20240115" becomes 2024-01-15); with no `date` column the
date-conversion step changes nothing. -/
theorem claim_C5_date_column :
    (∀ (t t2 : Table), convertDateColumn t = Except.ok t2 →
      ∀ r ∈ t2, ∀ p ∈ r, p.1 = "date" → ∃ y m d, p.2 = Value.date y m d) ∧
    (∀ t : Table, (∀ r ∈ t, "date" ∉ keys r) → convertDateColumn t = Except.ok t) ∧
    responseToDataframe ⟨some ["date"], some ["sessions"], some [⟨["20240115"], ["3"]⟩]⟩ =
      Except.ok [[("date", Value.date 2024 1 15), ("sessions", Value.int 3)]] := by
  refine ⟨?_, fun t h => convertDateColumn_skip t h, by decide⟩
  intro t t2 h r hr p hp hpd
  rw [convertDateColumn] at h
  split at h
  · rcases exMap_ok_mem _ h r hr with ⟨r0, hr0, hrok⟩
    rcases exMap_ok_mem _ hrok p hp with ⟨p0, hp0, hpok⟩
    rcases convertDatePair_ok_spec p0 p hpok with ⟨hne, heq⟩ | ⟨_, hex⟩
    · rw [heq] at hpd
      exact absurd hpd hne
    · exact hex
  · cases h
    rename_i hc
    exfalso
    apply hc
    rw [hasDateColumn, List.any_eq_true]
    refine ⟨r, hr, ?_⟩
    rw [List.any_eq_true]
    exact ⟨p, hp, by simp [hpd]⟩

/-- Witness for C5: the converted cell of a concrete one-cell table is a
calendar date. -/
theorem claim_C5_date_column_witness :
    ∃ y m d, (("date", Value.date 2024 1 15) : String × Value).2 = Value.date y m d :=
  claim_C5_date_column.1 [[("date", Value.str "20240115")]]
    [[("date", Value.date 2024 1 15)]] (by decide)
    [("date", Value.date 2024 1 15)] (by decide)
    ("date", Value.date 2024 1 15) (by decide) rfl

/-- C4 counterexample: normalization is not total — with a `date` column
value not in YYYYMMDD form, the date-conversion step raises and the error
propagates out of normalization instead of a table being returned. -/
theorem claim_C4_counterexample :
    responseToDataframe ⟨some ["date"], some [], some [⟨["abc"], []⟩]⟩ =
      Except.error "time data abc does not match format %Y%m%d" := by decide

/-- C4 (amended): normalization never raises for aligned raw responses
that produce no `date` column — malformed metric values (arbitrary
strings here) fall back silently and a table is returned; only a
malformed `date` value makes normalization raise (the enclosing fetch
then catches it). -/
theorem claim_C4_amended (resp : RawResponse)
    (hnd : (resp.dimension_headers.getD [] ++ resp.metric_headers.getD []).Nodup)
    (hdate : "date" ∉ resp.dimension_headers.getD [] ++ resp.metric_headers.getD [])
    (halign : ∀ row ∈ resp.rows.getD [],
      (resp.dimension_headers.getD []).length ≤ row.dimension_values.length ∧
      (resp.metric_headers.getD []).length ≤ row.metric_values.length) :
    ∃ t, responseToDataframe resp = Except.ok t := by
  rcases responseToDataframe_total resp hnd hdate halign with ⟨t, h, _⟩
  exact ⟨t, h⟩

/-- Witness for the amended C4 at a concrete response whose metric value
is unparsable (the fallback keeps it, no error). -/
theorem claim_C4_amended_witness :
    ∃ t, responseToDataframe ⟨some ["country"], some ["sessions"],
      some [⟨["ES"], ["not-a-number"]⟩]⟩ = Except.ok t :=
  claim_C4_amended ⟨some ["country"], some ["sessions"], some [⟨["ES"], ["not-a-number"]⟩]⟩
    (by decide) (by decide) (by decide)

/-- C10: normalization is total with respect to missing header
attributes — lacking `metric_headers`, each output record holds only the
dimension columns; lacking `dimension_headers`, only the metric columns;
no error is raised in either case. -/
theorem claim_C10_missing_headers :
    (∀ (dn : List String) (rows : List RawRow), rows ≠ [] → dn.Nodup →
      "date" ∉ dn → (∀ row ∈ rows, dn.length ≤ row.dimension_values.length) →
      ∃ t, responseToDataframe ⟨some dn, none, some rows⟩ = Except.ok t ∧
        t.length = rows.length ∧ ∀ r ∈ t, keys r = dn) ∧
    (∀ (mn : List String) (rows : List RawRow), rows ≠ [] → mn.Nodup →
      "date" ∉ mn → (∀ row ∈ rows, mn.length ≤ row.metric_values.length) →
      ∃ t, responseToDataframe ⟨none, some mn, some rows⟩ = Except.ok t ∧
        t.length = rows.length ∧ ∀ r ∈ t, keys r = mn) := by
  constructor
  · intro dn rows _ hnd hdate halign
    have h := responseToDataframe_total ⟨some dn, none, some rows⟩
      (by simpa using hnd) (by simpa using hdate)
      (by intro row hrow
          refine ⟨?_, ?_⟩
          · simpa using halign row (by simpa using hrow)
          · simp)
    rcases h with ⟨t, h1, h2, h3⟩
    refine ⟨t, h1, by simpa using h2, ?_⟩
    intro r hr
    simpa using h3 r hr
  · intro mn rows _ hnd hdate halign
    have h := responseToDataframe_total ⟨none, some mn, some rows⟩
      (by simpa using hnd) (by simpa using hdate)
      (by intro row hrow
          refine ⟨?_, ?_⟩
          · simp
          · simpa using halign row (by simpa using hrow))
    rcases h with ⟨t, h1, h2, h3⟩
    refine ⟨t, h1, by simpa using h2, ?_⟩
    intro r hr
    simpa using h3 r hr

/-- Witness for C10 at concrete one-row responses, one lacking
`metric_headers` and one lacking `dimension_headers`. -/
theorem claim_C10_missing_headers_witness :
    (∃ t, responseToDataframe ⟨some ["country"], none, some [⟨["ES"], ["9"]⟩]⟩ =
      Except.ok t ∧ t.length = 1 ∧ ∀ r ∈ t, keys r = ["country"]) ∧
    (∃ t, responseToDataframe ⟨none, some ["sessions"], some [⟨[], ["5"]⟩]⟩ =
      Except.ok t ∧ t.length = 1 ∧ ∀ r ∈ t, keys r = ["sessions"]) :=
  ⟨claim_C10_missing_headers.1 ["country"] [⟨["ES"], ["9"]⟩]
      (by decide) (by decide) (by decide) (by decide),
   claim_C10_missing_headers.2 ["sessions"] [⟨[], ["5"]⟩]
      (by decide) (by decide) (by decide) (by decide)⟩

instance : DecidableEq (CacheKey × Nat × Option Table) := instDecidableEqProd

/-- C6 counterexample: the data memoization is not keyed by the client
identity.  A first call with client "p" caches a table; a second call
with a different client "q" (whose own fetch would return a different
table) but the same (start, end, kind) within the TTL returns the cached
table of "p" with zero remote invocations, so the key is the 3-tuple
(start, end, kind), not the full 4-tuple. -/
theorem claim_C6_counterexample :
    (get_cached_data
      ⟨"p", fun _ => Except.ok ⟨some ["country"], some ["sessions"], some [⟨["ES"], ["5"]⟩]⟩,
        fun _ => Except.error "x"⟩
      (some "2024-01-01") (some "2024-01-31") "basic" ⟨[], none, 0⟩).1 =
      some [[("country", Value.str "ES"), ("sessions", Value.int 5)]] ∧
    (get_cached_data
      ⟨"p", fun _ => Except.ok ⟨some ["country"], some ["sessions"], some [⟨["ES"], ["5"]⟩]⟩,
        fun _ => Except.error "x"⟩
      (some "2024-01-01") (some "2024-01-31") "basic" ⟨[], none, 0⟩).2.1.dataCache =
      [((some "2024-01-01", some "2024-01-31", "basic"), 0,
        some [[("country", Value.str "ES"), ("sessions", Value.int 5)]])] ∧
    (get_cached_data
      ⟨"q", fun _ => Except.ok ⟨some ["country"], some ["sessions"], some [⟨["FR"], ["7"]⟩]⟩,
        fun _ => Except.error "x"⟩
      (some "2024-01-01") (some "2024-01-31") "basic"
      ⟨[((some "2024-01-01", some "2024-01-31", "basic"), 0,
         some [[("country", Value.str "ES"), ("sessions", Value.int 5)]])], none, 0⟩).1 =
      some [[("country", Value.str "ES"), ("sessions", Value.int 5)]] ∧
    countRemote (get_cached_data
      ⟨"q", fun _ => Except.ok ⟨some ["country"], some ["sessions"], some [⟨["FR"], ["7"]⟩]⟩,
        fun _ => Except.error "x"⟩
      (some "2024-01-01") (some "2024-01-31") "basic"
      ⟨[((some "2024-01-01", some "2024-01-31", "basic"), 0,
         some [[("country", Value.str "ES"), ("sessions", Value.int 5)]])], none, 0⟩).2.2 = 0 ∧
    (computeData
      ⟨"q", fun _ => Except.ok ⟨some ["country"], some ["sessions"], some [⟨["FR"], ["7"]⟩]⟩,
        fun _ => Except.error "x"⟩
      (some "2024-01-01") (some "2024-01-31") "basic").1 =
      some [[("country", Value.str "FR"), ("sessions", Value.int 7)]] ∧
    ([[("country", Value.str "ES"), ("sessions", Value.int 5)]] : Table) ≠
      [[("country", Value.str "FR"), ("sessions", Value.int 7)]] := by
  refine ⟨by decide, by decide, by decide, by decide, by decide, by decide⟩

/-- C6 (amended): the data memoization is keyed by the 3-tuple
(start date, end date, report kind) — the client argument is excluded
from the key by its underscore-prefixed parameter name — and for every
such key, two calls within the 300-second TTL with identical key
arguments return the same table contents and perform exactly one remote
invocation in total, even if the client objects differ. -/
theorem claim_C6_amended (c c2 : GA4Client) (s e : Option String) (dt : String)
    (σ : AppCache) (n2 : Nat)
    (hmiss : lookupFresh σ (s, e, dt) = none)
    (hdt : dt = "basic" ∨ dt = "pages" ∨ dt = "sources" ∨ dt = "geographic" ∨
      dt = "devices" ∨ dt = "realtime")
    (_hmono : σ.now ≤ n2) (h2 : n2 < σ.now + 300) :
    countRemote (get_cached_data c s e dt σ).2.2 = 1 ∧
    (get_cached_data c2 s e dt
      { (get_cached_data c s e dt σ).2.1 with now := n2 }).1 =
      (get_cached_data c s e dt σ).1 ∧
    (get_cached_data c2 s e dt
      { (get_cached_data c s e dt σ).2.1 with now := n2 }).2.2 = [] := by
  have hc : get_cached_data c s e dt σ =
      ((computeData c s e dt).1, storeData σ (s, e, dt) (computeData c s e dt).1,
       (computeData c s e dt).2) := by
    rw [get_cached_data, hmiss]
  have hl : lookupFresh { (get_cached_data c s e dt σ).2.1 with now := n2 } (s, e, dt) =
      some (computeData c s e dt).1 := by
    rw [hc]
    dsimp only
    rw [storeData, lookupFresh]
    dsimp only
    rw [List.find?_cons_of_pos _ (by simp)]
    dsimp only
    rw [if_pos h2]
  have hsecond : get_cached_data c2 s e dt
      { (get_cached_data c s e dt σ).2.1 with now := n2 } =
      ((computeData c s e dt).1,
       { (get_cached_data c s e dt σ).2.1 with now := n2 }, []) := by
    rw [get_cached_data, hl]
  refine ⟨?_, ?_, ?_⟩
  · rw [hc]
    exact countRemote_computeData c s e dt hdt
  · rw [hsecond, hc]
  · rw [hsecond]

/-- Witness for the amended C6: two concrete calls with the same key
within the TTL, one remote invocation in total. -/
theorem claim_C6_amended_witness :
    countRemote (get_cached_data
      ⟨"p", fun _ => Except.ok ⟨some ["country"], some ["sessions"], some [⟨["ES"], ["5"]⟩]⟩,
        fun _ => Except.error "x"⟩
      (some "2024-01-01") (some "2024-01-31") "basic" ⟨[], none, 0⟩).2.2 = 1 ∧
    (get_cached_data
      ⟨"p", fun _ => Except.ok ⟨some ["country"], some ["sessions"], some [⟨["ES"], ["5"]⟩]⟩,
        fun _ => Except.error "x"⟩
      (some "2024-01-01") (some "2024-01-31") "basic"
      { (get_cached_data
          ⟨"p", fun _ => Except.ok ⟨some ["country"], some ["sessions"], some [⟨["ES"], ["5"]⟩]⟩,
            fun _ => Except.error "x"⟩
          (some "2024-01-01") (some "2024-01-31") "basic" ⟨[], none, 0⟩).2.1 with
        now := 100 }).1 =
      (get_cached_data
        ⟨"p", fun _ => Except.ok ⟨some ["country"], some ["sessions"], some [⟨["ES"], ["5"]⟩]⟩,
          fun _ => Except.error "x"⟩
        (some "2024-01-01") (some "2024-01-31") "basic" ⟨[], none, 0⟩).1 ∧
    (get_cached_data
      ⟨"p", fun _ => Except.ok ⟨some ["country"], some ["sessions"], some [⟨["ES"], ["5"]⟩]⟩,
        fun _ => Except.error "x"⟩
      (some "2024-01-01") (some "2024-01-31") "basic"
      { (get_cached_data
          ⟨"p", fun _ => Except.ok ⟨some ["country"], some ["sessions"], some [⟨["ES"], ["5"]⟩]⟩,
            fun _ => Except.error "x"⟩
          (some "2024-01-01") (some "2024-01-31") "basic" ⟨[], none, 0⟩).2.1 with
        now := 100 }).2.2 = [] :=
  claim_C6_amended
    ⟨"p", fun _ => Except.ok ⟨some ["country"], some ["sessions"], some [⟨["ES"], ["5"]⟩]⟩,
      fun _ => Except.error "x"⟩
    ⟨"p", fun _ => Except.ok ⟨some ["country"], some ["sessions"], some [⟨["ES"], ["5"]⟩]⟩,
      fun _ => Except.error "x"⟩
    (some "2024-01-01") (some "2024-01-31") "basic" ⟨[], none, 0⟩ 100
    rfl (Or.inl rfl) (by decide) (by decide)

/-- C7: the manual-refresh action clears the entire data memoization
scope — after it, the next cached fetch for any previously cached key
performs a new remote invocation — while the client memoization scope
(`st.cache_resource`) is left untouched. -/
theorem claim_C7_refresh_clears_all (σ : AppCache) (c : GA4Client)
    (s e : Option String) (dt : String)
    (_hcached : lookupFresh σ (s, e, dt) ≠ none)
    (hdt : dt = "basic" ∨ dt = "pages" ∨ dt = "sources" ∨ dt = "geographic" ∨
      dt = "devices" ∨ dt = "realtime") :
    countRemote (get_cached_data c s e dt (manualRefresh σ)).2.2 = 1 ∧
    (manualRefresh σ).resourceCache = σ.resourceCache := by
  constructor
  · have hm : lookupFresh (manualRefresh σ) (s, e, dt) = none := rfl
    rw [get_cached_data, hm]
    exact countRemote_computeData c s e dt hdt
  · rfl

/-- Witness for C7: a concrete state holding one fresh cached entry; the
refreshed fetch performs one remote invocation and the resource cache is
unchanged. -/
theorem claim_C7_refresh_clears_all_witness :
    countRemote (get_cached_data ⟨"p", fun _ => Except.error "boom", fun _ => Except.error "boom"⟩
      (some "2024-01-01") (some "2024-01-31") "basic"
      (manualRefresh ⟨[((some "2024-01-01", some "2024-01-31", "basic"), 0, some [])],
        none, 10⟩)).2.2 = 1 ∧
    (manualRefresh ⟨[((some "2024-01-01", some "2024-01-31", "basic"), 0, some [])],
      none, 10⟩).resourceCache =
      (⟨[((some "2024-01-01", some "2024-01-31", "basic"), 0, some [])],
        none, 10⟩ : AppCache).resourceCache :=
  claim_C7_refresh_clears_all
    ⟨[((some "2024-01-01", some "2024-01-31", "basic"), 0, some [])], none, 10⟩
    ⟨"p", fun _ => Except.error "boom", fun _ => Except.error "boom"⟩
    (some "2024-01-01") (some "2024-01-31") "basic" (by decide) (Or.inl rfl)
